import Mathlib

/-!
Verification of the `ears` audio binding layer (listener façade, reverb
effect lifecycle, buffered sound data) against its natural-language
specification.

The Rust sources under verification are `src/listener.rs`,
`src/reverb_effect.rs` and `src/sound_data.rs`.  They are straight-line
marshalling code over an external OpenAL-style audio subsystem and an
external sound-file decoder.  We embed them shallowly:

* The external audio world is an explicit state (`ALState`): context
  validity, listener properties, allocated handles, slot bindings, and an
  oracle of answers to successive error-flag queries.
* Every external call is also recorded in an event trace (`ALCall`), so
  that claims about which calls happen, in which order, and how often,
  are stated as facts about the trace.
* The binding layer performs no floating-point arithmetic: every `f32`
  is moved verbatim between the caller and the external state.  The value
  carrier `F32` is therefore taken to be `ℚ`, which has decidable
  equality; every theorem below is carrier-independent.
* Rust `Result` becomes `Except`; struct drops (RAII) become explicit
  teardown functions invoked where Rust would invoke them.
-/

/-- Values marshalled for Rust `f32`.  The layer under verification never
computes with these values, it only stores and forwards them, so any
carrier with decidable equality is faithful; we use `ℚ`. -/
abbrev F32 := Rat

/-- A three-dimensional vector of `f32`, Rust `[f32; 3]`. -/
structure V3 where
  x : F32
  y : F32
  z : F32
  deriving DecidableEq, Repr

/-- The zero vector `[0., 0., 0.]`. -/
def V3.zero : V3 := ⟨0, 0, 0⟩

/-- Modelled from the spec: the error codes of `al::AlError`
(`openal/al.rs`, not present under `src/`) — "an error-flag query
returning the most recent failure, if any, as a small fixed set of named
codes". -/
inductive AlError where
  | InvalidName
  | InvalidEnum
  | InvalidValue
  | InvalidOperation
  | OutOfMemory
  deriving DecidableEq, Repr

/- OpenAL property enumerations used by the three source files.  The
`ffi` module is not under `src/`; the numeric values are the standard
OpenAL/EFX ones, and only their distinctness within one call family
matters to the model. -/

def AL_GAIN : Nat := 0x100A
def AL_POSITION : Nat := 0x1004
def AL_VELOCITY : Nat := 0x1006
def AL_ORIENTATION : Nat := 0x100F
def AL_EFFECT_TYPE : Nat := 0x8001
def AL_EFFECT_REVERB : Int := 0x0001
def AL_EFFECT_NULL : Nat := 0x0000
def AL_EFFECTSLOT_EFFECT : Nat := 0x0001
def AL_REVERB_DENSITY : Nat := 0x0001
def AL_REVERB_DIFFUSION : Nat := 0x0002
def AL_REVERB_GAIN : Nat := 0x0003
def AL_REVERB_GAINHF : Nat := 0x0004
def AL_REVERB_DECAY_TIME : Nat := 0x0005
/-- The ffi constant AL_REVERB_DECAY_HFRATIO (renamed here only in its
letter case). -/
def AL_REVERB_DECAY_HFRatio : Nat := 0x0006
def AL_REVERB_REFLECTIONS_GAIN : Nat := 0x0007
def AL_REVERB_REFLECTIONS_DELAY : Nat := 0x0008
def AL_REVERB_LATE_REVERB_GAIN : Nat := 0x0009
def AL_REVERB_LATE_REVERB_DELAY : Nat := 0x000A
def AL_REVERB_AIR_ABSORPTION_GAINHF : Nat := 0x000B
def AL_REVERB_ROOM_ROLLOFF_FACTOR : Nat := 0x000C
def AL_REVERB_DECAY_HFLIMIT : Nat := 0x000D
def AL_FORMAT_MONO16 : Int := 0x1101
def AL_FORMAT_STEREO16 : Int := 0x1103

/-- One call across the external boundary (OpenAL subsystem or the
sound-file decoder), with the arguments marshalled to it / the handle
returned from it.  Traces of these events make "which external calls
happened, in which order" a provable statement. -/
inductive ALCall where
  | listenerf (param : Nat) (value : F32)
  | getListenerf (param : Nat)
  | listenerfv (param : Nat) (values : List F32)
  | getListenerfv (param : Nat)
  | genAuxiliaryEffectSlots (n : Nat) (slot : Nat)
  | genEffects (n : Nat) (effect : Nat)
  | effecti (effect : Nat) (param : Nat) (value : Int)
  | effectf (effect : Nat) (param : Nat) (value : F32)
  | auxiliaryEffectSloti (slot : Nat) (param : Nat) (value : Nat)
  | deleteEffects (n : Nat) (effect : Nat)
  | deleteAuxiliaryEffectSlots (n : Nat) (slot : Nat)
  | getError
  | genBuffers (n : Nat) (buffer : Nat)
  | bufferData (buffer : Nat) (format : Int) (data : List Int) (len : Int)
      (samplerate : Int)
  | sndOpen (path : String)
  | sndRead (count : Int) (data : List Int)
  | sndClose
  deriving DecidableEq, Repr

/-- The externally-owned audio world.

`errors` is the oracle of answers the external subsystem will give to
successive error-flag queries (`alGetError`): the head answers the next
query.  Handle generation returns `nextHandle + 1`, so every handle the
external system hands out is nonzero (`0` is the null/reserved name).
`slotBinding` records, per auxiliary effect slot, which effect object the
slot currently loads (`AL_EFFECT_NULL = 0` when none).  The `alive*`
lists record which handles are currently allocated and not yet
deleted. -/
structure ALState where
  ctxValid : Bool
  errors : List (Option AlError)
  nextHandle : Nat
  scalarProps : Nat → F32
  vecProps : Nat → List F32
  slotBinding : Nat → Nat
  aliveSlots : List Nat
  aliveEffects : List Nat
  aliveBuffers : List Nat

/-- Result of running an embedded operation: returned value, final
external state, and the trace of external calls made. -/
structure ALRes (α : Type) where
  val : α
  st : ALState
  tr : List ALCall

/-- An embedded operation: a function of the external state. -/
def AL (α : Type) : Type := ALState → ALRes α

/-- Modelled from the spec: the `check_openal_context!` macro
(`internal.rs`, not present under `src/`) — each operation "first
verifies a valid audio context exists; if not, returns a type-appropriate
zero-value default ... no error is raised".  When no valid context
exists the enclosing function returns `dflt` at once, making no external
call and leaving the external state untouched. -/
def checkOpenalContext (dflt : α) (body : AL α) : AL α := fun s =>
  if s.ctxValid then body s else ⟨dflt, s, []⟩

/- External-call primitives (`al::*` shims over the ffi; `openal/al.rs`
is not under `src/`, the semantics here is the OpenAL object model the
spec describes: property stores keyed by enumeration, generate/delete
for handles, an error-flag query). -/

/-- `al::alListenerf`: store a scalar listener property. -/
def alListenerf (param : Nat) (value : F32) : AL Unit := fun s =>
  ⟨(), { s with scalarProps := fun p => if p = param then value else s.scalarProps p },
    [.listenerf param value]⟩

/-- `al::alGetListenerf`: read a scalar listener property into the
caller-provided out-variable. -/
def alGetListenerf (param : Nat) : AL F32 := fun s =>
  ⟨s.scalarProps param, s, [.getListenerf param]⟩

/-- `al::alListenerfv`: store a vector listener property. -/
def alListenerfv (param : Nat) (values : List F32) : AL Unit := fun s =>
  ⟨(), { s with vecProps := fun p => if p = param then values else s.vecProps p },
    [.listenerfv param values]⟩

/-- `al::alGetListenerfv`: read a vector listener property into the
caller-provided out-array. -/
def alGetListenerfv (param : Nat) : AL (List F32) := fun s =>
  ⟨s.vecProps param, s, [.getListenerfv param]⟩

/-- `al::alGenAuxiliaryEffectSlots(1, &mut id)`: allocate one auxiliary
effect slot; a fresh slot loads no effect. -/
def alGenAuxiliaryEffectSlots : AL Nat := fun s =>
  let id := s.nextHandle + 1
  ⟨id,
    { s with nextHandle := id,
             aliveSlots := id :: s.aliveSlots,
             slotBinding := fun p => if p = id then AL_EFFECT_NULL else s.slotBinding p },
    [.genAuxiliaryEffectSlots 1 id]⟩

/-- `al::alGenEffects(1, &mut id)`: allocate one effect object. -/
def alGenEffects : AL Nat := fun s =>
  let id := s.nextHandle + 1
  ⟨id, { s with nextHandle := id, aliveEffects := id :: s.aliveEffects },
    [.genEffects 1 id]⟩

/-- `al::alEffecti`: write an integer parameter of an effect object.
The binding layer never reads effect parameters back, so the write is
observed through the trace. -/
def alEffecti (effect : Nat) (param : Nat) (value : Int) : AL Unit := fun s =>
  ⟨(), s, [.effecti effect param value]⟩

/-- `al::alEffectf`: write a float parameter of an effect object. -/
def alEffectf (effect : Nat) (param : Nat) (value : F32) : AL Unit := fun s =>
  ⟨(), s, [.effectf effect param value]⟩

/-- `al::alAuxiliaryEffectSloti`: write an integer parameter of an
auxiliary effect slot; with `AL_EFFECTSLOT_EFFECT` this loads the given
effect object into the slot. -/
def alAuxiliaryEffectSloti (slot : Nat) (param : Nat) (value : Nat) : AL Unit := fun s =>
  ⟨(), { s with slotBinding :=
          if param = AL_EFFECTSLOT_EFFECT then
            fun p => if p = slot then value else s.slotBinding p
          else s.slotBinding },
    [.auxiliaryEffectSloti slot param value]⟩

/-- `ffi::alDeleteEffects(1, &mut id)`: release one effect object. -/
def alDeleteEffects (effect : Nat) : AL Unit := fun s =>
  ⟨(), { s with aliveEffects := s.aliveEffects.erase effect },
    [.deleteEffects 1 effect]⟩

/-- `ffi::alDeleteAuxiliaryEffectSlots(1, &mut id)`: release one
auxiliary effect slot. -/
def alDeleteAuxiliaryEffectSlots (slot : Nat) : AL Unit := fun s =>
  ⟨(), { s with aliveSlots := s.aliveSlots.erase slot },
    [.deleteAuxiliaryEffectSlots 1 slot]⟩

/-- `al::openal_has_error`: query the external error flag; the external
subsystem answers with the head of the oracle. -/
def openal_has_error : AL (Option AlError) := fun s =>
  ⟨s.errors.headD none, { s with errors := s.errors.tail }, [.getError]⟩

/-- `al::alGenBuffers(1, &mut id)`: allocate one buffer handle. -/
def alGenBuffers : AL Nat := fun s =>
  let id := s.nextHandle + 1
  ⟨id, { s with nextHandle := id, aliveBuffers := id :: s.aliveBuffers },
    [.genBuffers 1 id]⟩

/-- `al::alBufferData`: upload raw sample bytes to a buffer; arguments
are recorded in the trace (the buffer contents live on the external
side). -/
def alBufferData (buffer : Nat) (format : Int) (data : List Int) (len : Int)
    (samplerate : Int) : AL Unit := fun s =>
  ⟨(), s, [.bufferData buffer format data len samplerate]⟩

namespace listener

/-- `listener::set_volume` (src/listener.rs, lines 43-46). -/
def set_volume (volume : F32) : AL Unit :=
  checkOpenalContext () (alListenerf AL_GAIN volume)

/-- `listener::get_volume` (src/listener.rs, lines 61-67). -/
def get_volume : AL F32 :=
  checkOpenalContext 0 (alGetListenerf AL_GAIN)

/-- `listener::set_position` (src/listener.rs, lines 89-92). -/
def set_position (position : V3) : AL Unit :=
  checkOpenalContext ()
    (alListenerfv AL_POSITION [position.x, position.y, position.z])

/-- `listener::get_position` (src/listener.rs, lines 108-114): the Rust
code zero-initialises a `[f32; 3]` and lets the external call fill it;
entries the external store does not provide stay `0`. -/
def get_position : AL V3 :=
  checkOpenalContext V3.zero (fun s =>
    let r := alGetListenerfv AL_POSITION s
    ⟨⟨r.val.getD 0 0, r.val.getD 1 0, r.val.getD 2 0⟩, r.st, r.tr⟩)

/-- `listener::set_orientation` (src/listener.rs, lines 131-142): the
two 3-vectors are packed into one 6-element array for a single external
call. -/
def set_orientation (orientation_at : V3) (orientation_up : V3) : AL Unit :=
  checkOpenalContext ()
    (alListenerfv AL_ORIENTATION
      [orientation_at.x, orientation_at.y, orientation_at.z,
       orientation_up.x, orientation_up.y, orientation_up.z])

/-- `listener::get_orientation` (src/listener.rs, lines 158-166): reads
the 6-element layout back and splits it into the `(at, up)` pair. -/
def get_orientation : AL (V3 × V3) :=
  checkOpenalContext (V3.zero, V3.zero) (fun s =>
    let r := alGetListenerfv AL_ORIENTATION s
    ⟨(⟨r.val.getD 0 0, r.val.getD 1 0, r.val.getD 2 0⟩,
      ⟨r.val.getD 3 0, r.val.getD 4 0, r.val.getD 5 0⟩), r.st, r.tr⟩)

/-- `listener::set_velocity` (src/listener.rs, lines 177-181). -/
def set_velocity (velocity : V3) : AL Unit :=
  checkOpenalContext ()
    (alListenerfv AL_VELOCITY [velocity.x, velocity.y, velocity.z])

/-- `listener::get_velocity` (src/listener.rs, lines 190-196). -/
def get_velocity : AL V3 :=
  checkOpenalContext V3.zero (fun s =>
    let r := alGetListenerfv AL_VELOCITY s
    ⟨⟨r.val.getD 0 0, r.val.getD 1 0, r.val.getD 2 0⟩, r.st, r.tr⟩)

end listener

/-- `ReverbEffectError` (src/reverb_effect.rs, lines 8-14). -/
inductive ReverbEffectError where
  | InvalidOpenALContext
  | InternalOpenALError (err : AlError)
  deriving DecidableEq, Repr

/-- `ReverbEffect` (src/reverb_effect.rs, lines 87-90): owns the two
externally-allocated handles. -/
structure ReverbEffect where
  effect_id : Nat
  effect_slot_id : Nat
  deriving DecidableEq, Repr

/-- Modelled from the spec: `ReverbProperties` (`presets.rs`, not under
`src/`; the preset value tables are excluded from the spec, but the
thirteen field names are fixed by their use in `ReverbEffect::preset`). -/
structure ReverbProperties where
  density : F32
  diffusion : F32
  gain : F32
  gainhf : F32
  decay_time : F32
  decay_hfratio : F32
  reflections_gain : F32
  reflections_delay : F32
  late_reverb_gain : F32
  late_reverb_delay : F32
  air_absorption_gainhf : F32
  room_rolloff_factor : F32
  decay_hflimit : Int
  deriving DecidableEq, Repr

/-- `ReverbEffect::new` (src/reverb_effect.rs, lines 93-120): context
check, allocate slot, allocate effect, tag effect as reverb, one error
check; on error return it wrapped, else return the handle pair. -/
def ReverbEffect.new : AL (Except ReverbEffectError ReverbEffect) :=
  checkOpenalContext (.error .InvalidOpenALContext) (fun s =>
    let r1 := alGenAuxiliaryEffectSlots s
    let effect_slot_id := r1.val
    let r2 := alGenEffects r1.st
    let effect_id := r2.val
    let r3 := alEffecti effect_id AL_EFFECT_TYPE AL_EFFECT_REVERB r2.st
    let r4 := openal_has_error r3.st
    let tr := r1.tr ++ r2.tr ++ r3.tr ++ r4.tr
    match r4.val with
    | some err => ⟨.error (.InternalOpenALError err), r4.st, tr⟩
    | none => ⟨.ok ⟨effect_id, effect_slot_id⟩, r4.st, tr⟩)

/-- `ReverbEffect::slot` (src/reverb_effect.rs, lines 152-154). -/
def ReverbEffect.slot (e : ReverbEffect) : Nat :=
  e.effect_slot_id

/-- `ReverbEffect::update_slot` (src/reverb_effect.rs, lines 156-163):
load the effect object into the auxiliary slot. -/
def ReverbEffect.update_slot (e : ReverbEffect) : AL Unit :=
  checkOpenalContext ()
    (alAuxiliaryEffectSloti e.effect_slot_id AL_EFFECTSLOT_EFFECT e.effect_id)

/-- `ReverbEffect::set_density` (src/reverb_effect.rs, lines 165-168). -/
def ReverbEffect.set_density (e : ReverbEffect) (density : F32) : AL Unit :=
  checkOpenalContext () (alEffectf e.effect_id AL_REVERB_DENSITY density)

/-- `ReverbEffect::set_diffusion` (src/reverb_effect.rs, lines 170-173). -/
def ReverbEffect.set_diffusion (e : ReverbEffect) (diffusion : F32) : AL Unit :=
  checkOpenalContext () (alEffectf e.effect_id AL_REVERB_DIFFUSION diffusion)

/-- `ReverbEffect::set_gain` (src/reverb_effect.rs, lines 175-178). -/
def ReverbEffect.set_gain (e : ReverbEffect) (gain : F32) : AL Unit :=
  checkOpenalContext () (alEffectf e.effect_id AL_REVERB_GAIN gain)

/-- `ReverbEffect::set_gainhf` (src/reverb_effect.rs, lines 180-183). -/
def ReverbEffect.set_gainhf (e : ReverbEffect) (gainhf : F32) : AL Unit :=
  checkOpenalContext () (alEffectf e.effect_id AL_REVERB_GAINHF gainhf)

/-- `ReverbEffect::set_decay_time` (src/reverb_effect.rs, lines 185-188). -/
def ReverbEffect.set_decay_time (e : ReverbEffect) (decay_time : F32) : AL Unit :=
  checkOpenalContext () (alEffectf e.effect_id AL_REVERB_DECAY_TIME decay_time)

/-- `ReverbEffect::set_decay_hfratio` (src/reverb_effect.rs, lines 190-193). -/
def ReverbEffect.set_decay_hfratio (e : ReverbEffect) (decay_hfratio : F32) : AL Unit :=
  checkOpenalContext () (alEffectf e.effect_id AL_REVERB_DECAY_HFRatio decay_hfratio)

/-- `ReverbEffect::set_reflections_gain` (src/reverb_effect.rs, lines 195-202). -/
def ReverbEffect.set_reflections_gain (e : ReverbEffect) (reflections_gain : F32) : AL Unit :=
  checkOpenalContext () (alEffectf e.effect_id AL_REVERB_REFLECTIONS_GAIN reflections_gain)

/-- `ReverbEffect::set_reflections_delay` (src/reverb_effect.rs, lines 204-211). -/
def ReverbEffect.set_reflections_delay (e : ReverbEffect) (reflections_delay : F32) : AL Unit :=
  checkOpenalContext () (alEffectf e.effect_id AL_REVERB_REFLECTIONS_DELAY reflections_delay)

/-- `ReverbEffect::set_late_reverb_gain` (src/reverb_effect.rs, lines 213-220). -/
def ReverbEffect.set_late_reverb_gain (e : ReverbEffect) (late_reverb_gain : F32) : AL Unit :=
  checkOpenalContext () (alEffectf e.effect_id AL_REVERB_LATE_REVERB_GAIN late_reverb_gain)

/-- `ReverbEffect::set_late_reverb_delay` (src/reverb_effect.rs, lines 222-229). -/
def ReverbEffect.set_late_reverb_delay (e : ReverbEffect) (late_reverb_delay : F32) : AL Unit :=
  checkOpenalContext () (alEffectf e.effect_id AL_REVERB_LATE_REVERB_DELAY late_reverb_delay)

/-- `ReverbEffect::set_air_absorption_gainhf` (src/reverb_effect.rs, lines 231-238). -/
def ReverbEffect.set_air_absorption_gainhf (e : ReverbEffect)
    (air_absorption_gainhf : F32) : AL Unit :=
  checkOpenalContext ()
    (alEffectf e.effect_id AL_REVERB_AIR_ABSORPTION_GAINHF air_absorption_gainhf)

/-- `ReverbEffect::set_room_rolloff_factor` (src/reverb_effect.rs, lines 240-247). -/
def ReverbEffect.set_room_rolloff_factor (e : ReverbEffect)
    (room_rolloff_factor : F32) : AL Unit :=
  checkOpenalContext ()
    (alEffectf e.effect_id AL_REVERB_ROOM_ROLLOFF_FACTOR room_rolloff_factor)

/-- `ReverbEffect::set_decay_hflimit` (src/reverb_effect.rs, lines 249-252). -/
def ReverbEffect.set_decay_hflimit (e : ReverbEffect) (decay_hflimit : Int) : AL Unit :=
  checkOpenalContext () (alEffecti e.effect_id AL_REVERB_DECAY_HFLIMIT decay_hflimit)

/-- `impl Drop for ReverbEffect` (src/reverb_effect.rs, lines 255-281):
context check; unbind the slot (set its effect reference to the null
effect); delete the effect object, then the auxiliary effect slot; query
the error flag and, if it is set, report it as a diagnostic message
only.  The returned `Option AlError` is that diagnostic (the `eprintln!`
branch); the return type records that teardown can never raise an
error. -/
def ReverbEffect.drop (e : ReverbEffect) : AL (Option AlError) :=
  checkOpenalContext none (fun s =>
    let r1 := alAuxiliaryEffectSloti e.effect_slot_id AL_EFFECTSLOT_EFFECT AL_EFFECT_NULL s
    let r2 := alDeleteEffects e.effect_id r1.st
    let r3 := alDeleteAuxiliaryEffectSlots e.effect_slot_id r2.st
    let r4 := openal_has_error r3.st
    ⟨r4.val, r4.st, r1.tr ++ r2.tr ++ r3.tr ++ r4.tr⟩)

/-- `ReverbEffect::preset` (src/reverb_effect.rs, lines 122-150): base
construction, thirteen parameter writes, one aggregate error check, then
bind the effect into the slot.  On the aggregate-error path the Rust
`return Err(..)` drops the already-constructed `effect`, which runs
`Drop for ReverbEffect`; the embedding invokes `ReverbEffect.drop`
there, exactly where Rust does.  On the success path `effect` is moved
into the result, so no drop runs. -/
def ReverbEffect.preset (reverb_properties : ReverbProperties) :
    AL (Except ReverbEffectError ReverbEffect) := fun s =>
  let r0 := ReverbEffect.new s
  match r0.val with
  | .ok effect =>
    let r1 := effect.set_density reverb_properties.density r0.st
    let r2 := effect.set_diffusion reverb_properties.diffusion r1.st
    let r3 := effect.set_gain reverb_properties.gain r2.st
    let r4 := effect.set_gainhf reverb_properties.gainhf r3.st
    let r5 := effect.set_decay_time reverb_properties.decay_time r4.st
    let r6 := effect.set_decay_hfratio reverb_properties.decay_hfratio r5.st
    let r7 := effect.set_reflections_gain reverb_properties.reflections_gain r6.st
    let r8 := effect.set_reflections_delay reverb_properties.reflections_delay r7.st
    let r9 := effect.set_late_reverb_gain reverb_properties.late_reverb_gain r8.st
    let r10 := effect.set_late_reverb_delay reverb_properties.late_reverb_delay r9.st
    let r11 := effect.set_air_absorption_gainhf reverb_properties.air_absorption_gainhf r10.st
    let r12 := effect.set_room_rolloff_factor reverb_properties.room_rolloff_factor r11.st
    let r13 := effect.set_decay_hflimit reverb_properties.decay_hflimit r12.st
    let tr13 := r0.tr ++ r1.tr ++ r2.tr ++ r3.tr ++ r4.tr ++ r5.tr ++ r6.tr ++
      r7.tr ++ r8.tr ++ r9.tr ++ r10.tr ++ r11.tr ++ r12.tr ++ r13.tr
    let rchk := openal_has_error r13.st
    match rchk.val with
    | some err =>
      let rdrop := effect.drop rchk.st
      ⟨.error (.InternalOpenALError err), rdrop.st, tr13 ++ rchk.tr ++ rdrop.tr⟩
    | none =>
      let rbind := effect.update_slot rchk.st
      ⟨.ok effect, rbind.st, tr13 ++ rchk.tr ++ rbind.tr⟩
  | .error e => ⟨.error e, r0.st, r0.tr⟩

/-- Modelled from the spec: the decoder diagnostic carried by a failed
open (`sndfile.rs` is not under `src/`); the claims never inspect it,
only propagate it. -/
abbrev SndError := String

/-- `SndInfo` from the sndfile binding (`sndfile.rs`, not under `src/`):
the decoded file's metadata as the decoder reports it. -/
structure SndInfo where
  frames : Int
  samplerate : Int
  channels : Int
  format : Int
  sections : Int
  seekable : Int
  deriving DecidableEq, Repr

/-- Modelled from the spec: tag metadata (title/artist/etc.) read from
the file's embedded comments (`audio_tags.rs`, not under `src/`). -/
abbrev Tags := List (String × String)

/-- Modelled from the spec: what the sound-file decoder exposes for one
openable file — metadata, the stream of signed 16-bit samples, and tag
metadata.  Sample values are `i16` read verbatim; their range plays no
role in any claim. -/
structure SndFileData where
  info : SndInfo
  samples : List Int
  tags : Tags
  deriving DecidableEq, Repr

/-- Modelled from the spec: the sound-file decoder as an external
collaborator — "open-for-read by path" either yields the decoded file or
a diagnostic. -/
abbrev SndFileSystem := String → Except SndError SndFileData

/-- `SoundError` (`error.rs`, not under `src/`; the four variants are
fixed by their construction sites in src/sound_data.rs). -/
inductive SoundError where
  | InvalidOpenALContext
  | LoadError (err : SndError)
  | InvalidFormat
  | InternalOpenALError (err : AlError)
  deriving DecidableEq, Repr

/-- `SoundData` (src/sound_data.rs, lines 65-74). -/
structure SoundData where
  sound_tags : Tags
  snd_info : SndInfo
  nb_sample : Int
  al_buffer : Nat
  deriving DecidableEq, Repr

/-- Modelled from the spec: `al::get_channels_format` (`openal/al.rs`,
not under `src/`) — "map channel count to an external buffer-format
enumeration; if the channel count is unsupported (e.g., not mono/stereo)"
there is no format. -/
def get_channels_format (channels : Int) : Option Int :=
  if channels = 1 then some AL_FORMAT_MONO16
  else if channels = 2 then some AL_FORMAT_STEREO16
  else none

/-- `file.read_i16(&mut samples, n)` acting on the pre-zeroed vector of
length `n` (src/sound_data.rs, lines 105-106): the decoder fills the
vector from the front with the samples it has; entries past the end of
the stream keep their `0` initialisation. -/
def readVec (data : List Int) (n : Nat) : List Int :=
  data.take n ++ List.replicate (n - data.length) 0

/-- The value of `x as i32` for a nonnegative `x` (two's-complement
wrap), used where `alBufferData` receives the byte length. -/
def i32cast (n : Nat) : Int :=
  if n % 2 ^ 32 < 2 ^ 31 then (n % 2 ^ 32 : Nat) else (n % 2 ^ 32 : Nat) - 2 ^ 32

/-- The value of `x as usize` for an `i64` value `x` (two's-complement
bit pattern reinterpreted as unsigned). -/
def usizeCast (x : Int) : Nat :=
  (x % 2 ^ 64).toNat

/-- `SoundData::new` (src/sound_data.rs, lines 91-141): context check;
open the file (else `LoadError`); compute `nb_sample` as
`channels * frames`; read that many i16 samples into a pre-zeroed
vector; compute the byte length; map the channel count to a format (else
`InvalidFormat`); generate a buffer; upload; one error check (else
`InternalOpenALError`); capture the tags, close the file, and return. -/
def SoundData.new (fs : SndFileSystem) (path : String) :
    AL (Except SoundError SoundData) :=
  checkOpenalContext (.error .InvalidOpenALContext) (fun s =>
    match fs path with
    | .error err => ⟨.error (.LoadError err), s, [.sndOpen path]⟩
    | .ok file =>
      let infos := file.info
      let nb_sample : Int := infos.channels * infos.frames
      let samples := readVec file.samples (usizeCast nb_sample)
      let len : Nat := 2 * samples.length
      match get_channels_format infos.channels with
      | none => ⟨.error .InvalidFormat, s, [.sndOpen path, .sndRead nb_sample samples]⟩
      | some format =>
        let r1 := alGenBuffers s
        let buffer_id := r1.val
        let r2 := alBufferData buffer_id format samples (i32cast len) infos.samplerate r1.st
        let r3 := openal_has_error r2.st
        let tr := [.sndOpen path, .sndRead nb_sample samples] ++ r1.tr ++ r2.tr ++ r3.tr
        match r3.val with
        | some err => ⟨.error (.InternalOpenALError err), r3.st, tr⟩
        | none =>
          ⟨.ok { sound_tags := file.tags, snd_info := infos,
                 nb_sample := nb_sample, al_buffer := buffer_id },
            r3.st, tr ++ [.sndClose]⟩)

/-- `get_sndinfo` (src/sound_data.rs, lines 150-152). -/
def get_sndinfo (s_data : SoundData) : SndInfo :=
  s_data.snd_info

/-- `get_buffer` (src/sound_data.rs, lines 161-163). -/
def get_buffer (s_data : SoundData) : Nat :=
  s_data.al_buffer

/-- A decoded file the binding supports end to end: mono or stereo, at
least one frame, and a decoded byte size within the `i32` length field
of the upload call (the eager full-file decode bounds supported files,
spec §9). -/
def SndFileData.wellFormed (f : SndFileData) : Prop :=
  (f.info.channels = 1 ∨ f.info.channels = 2) ∧ 0 < f.info.frames ∧
    2 * (f.info.channels * f.info.frames) < 2 ^ 31

instance (f : SndFileData) : Decidable f.wellFormed := by
  unfold SndFileData.wellFormed
  infer_instance

/-- A concrete external state for witnesses: context validity and error
oracle as given, listener properties at their documented defaults, no
handles allocated yet. -/
def mkState (ctx : Bool) (errs : List (Option AlError)) : ALState where
  ctxValid := ctx
  errors := errs
  nextHandle := 0
  scalarProps := fun _ => 1
  vecProps := fun p => if p = AL_ORIENTATION then [0, 0, -1, 0, 1, 0] else [0, 0, 0]
  slotBinding := fun _ => 0
  aliveSlots := []
  aliveEffects := []
  aliveBuffers := []

/-- A state in which a `ReverbEffect` with effect object `7` and
auxiliary slot `4` is alive (Ready) but the audio context is gone. -/
def droppedCtxState : ALState :=
  { mkState false [] with nextHandle := 7, aliveEffects := [7], aliveSlots := [4] }

/-- A concrete named-preset parameter set for witnesses (the preset
value tables themselves are outside the spec's scope). -/
def presetProps : ReverbProperties where
  density := 1
  diffusion := 1
  gain := (316 : F32) / 1000
  gainhf := 1
  decay_time := (29 : F32) / 10
  decay_hfratio := (13 : F32) / 10
  reflections_gain := (500 : F32) / 1000
  reflections_delay := (15 : F32) / 1000
  late_reverb_gain := (706 : F32) / 500
  late_reverb_delay := (22 : F32) / 1000
  air_absorption_gainhf := (994 : F32) / 1000
  room_rolloff_factor := 0
  decay_hflimit := 1

/-- A concrete well-formed stereo file for witnesses: 2 channels,
3 frames, 6 decoded samples. -/
def shotFile : SndFileData where
  info := { frames := 3, samplerate := 44100, channels := 2,
            format := 0x10006, sections := 1, seekable := 1 }
  samples := [11, 12, 21, 22, 31, 32]
  tags := [("title", "shot")]

/-- A concrete four-channel file for witnesses: its channel count maps
to no supported buffer format. -/
def quadFile : SndFileData where
  info := { frames := 2, samplerate := 44100, channels := 4,
            format := 0x10006, sections := 1, seekable := 1 }
  samples := [1, 2, 3, 4, 5, 6, 7, 8]
  tags := []

/-- A concrete decoder for witnesses: two openable files, everything
else fails to open. -/
def demoFS : SndFileSystem := fun p =>
  if p = "res/shot.wav" then .ok shotFile
  else if p = "quad.wav" then .ok quadFile
  else .error "No such file or directory"

theorem readVec_length (data : List Int) (n : Nat) : (readVec data n).length = n := by
  simp [readVec]
  omega

theorem i32cast_of_lt (n : Nat) (h : n < 2 ^ 31) : i32cast n = n := by
  unfold i32cast
  split <;> omega

theorem usizeCast_of_nonneg (x : Int) (h0 : 0 ≤ x) (h : x < 2 ^ 64) :
    usizeCast x = x.toNat := by
  unfold usizeCast
  omega

/-- C1 (counterexample): a `ReverbEffect` in the Ready state (its two
handles `7` and `4` are allocated and alive) is dropped at a moment when
no valid context exists.  Contrary to the claim's "regardless of whether
a valid context exists at teardown time", teardown makes no external
call at all — it neither unbinds the slot nor deletes either handle, and
both stay alive. -/
theorem reverb_drop_no_context_cex :
    (ReverbEffect.drop ⟨7, 4⟩ droppedCtxState).tr = [] ∧
    (ReverbEffect.drop ⟨7, 4⟩ droppedCtxState).st.aliveEffects = [7] ∧
    (ReverbEffect.drop ⟨7, 4⟩ droppedCtxState).st.aliveSlots = [4] ∧
    (ReverbEffect.drop ⟨7, 4⟩ droppedCtxState).st = droppedCtxState :=
  ⟨rfl, rfl, rfl, rfl⟩

/-- C1 (amended): when a valid context exists at teardown, dropping a
`ReverbEffect` first unbinds the slot (sets its effect reference to the
null effect), then deletes the effect object and the auxiliary effect
slot, each exactly once — the trace is exactly those three calls plus
one error-flag query — and teardown never raises: an error flag set
after release surfaces only as the returned diagnostic.  When no valid
context exists, teardown is a no-op that performs no external call and
releases nothing (and still never raises). -/
theorem reverb_drop_spec (e : ReverbEffect) (s : ALState) :
    (s.ctxValid = true →
      (ReverbEffect.drop e s).val = s.errors.headD none ∧
      (ReverbEffect.drop e s).tr =
        [.auxiliaryEffectSloti e.effect_slot_id AL_EFFECTSLOT_EFFECT AL_EFFECT_NULL,
         .deleteEffects 1 e.effect_id,
         .deleteAuxiliaryEffectSlots 1 e.effect_slot_id,
         .getError] ∧
      (ReverbEffect.drop e s).st.aliveEffects = s.aliveEffects.erase e.effect_id ∧
      (ReverbEffect.drop e s).st.aliveSlots = s.aliveSlots.erase e.effect_slot_id ∧
      (ReverbEffect.drop e s).st.slotBinding e.effect_slot_id = AL_EFFECT_NULL) ∧
    (s.ctxValid = false → ReverbEffect.drop e s = ⟨none, s, []⟩) := by
  constructor
  · intro h
    refine ⟨?_, ?_, ?_, ?_, ?_⟩ <;>
      simp [ReverbEffect.drop, checkOpenalContext, h, alAuxiliaryEffectSloti,
        alDeleteEffects, alDeleteAuxiliaryEffectSlots, openal_has_error,
        AL_EFFECTSLOT_EFFECT]
  · intro h
    simp [ReverbEffect.drop, checkOpenalContext, h]

/-- C1 (witness): the amended theorem applied to an effect `⟨2, 1⟩` in a
live context with a clean error flag: the diagnostic is `none`, the
trace is unbind-delete-delete-query, and nothing stays alive. -/
theorem reverb_drop_spec_witness :
    (ReverbEffect.drop ⟨2, 1⟩ (mkState true [])).val = none ∧
    (ReverbEffect.drop ⟨2, 1⟩ (mkState true [])).tr =
      [.auxiliaryEffectSloti 1 AL_EFFECTSLOT_EFFECT AL_EFFECT_NULL,
       .deleteEffects 1 2, .deleteAuxiliaryEffectSlots 1 1, .getError] ∧
    (ReverbEffect.drop ⟨2, 1⟩ (mkState true [])).st.aliveEffects = [] ∧
    (ReverbEffect.drop ⟨2, 1⟩ (mkState true [])).st.aliveSlots = [] ∧
    (ReverbEffect.drop ⟨2, 1⟩ (mkState true [])).st.slotBinding 1 = AL_EFFECT_NULL :=
  (reverb_drop_spec ⟨2, 1⟩ (mkState true [])).1 rfl

/-- C2 (confirmed): when no valid context exists, every listener setter
is a no-op — unchanged state, empty trace of external calls — and every
getter returns its type-appropriate zero default (`0.0`, the zero
3-vector, or a pair of zero 3-vectors) with no external call; all eight
operations are total and none returns an error value. -/
theorem listener_no_context_defaults (s : ALState) (h : s.ctxValid = false)
    (g : F32) (p a u v : V3) :
    listener.set_volume g s = ⟨(), s, []⟩ ∧
    listener.get_volume s = ⟨0, s, []⟩ ∧
    listener.set_position p s = ⟨(), s, []⟩ ∧
    listener.get_position s = ⟨V3.zero, s, []⟩ ∧
    listener.set_orientation a u s = ⟨(), s, []⟩ ∧
    listener.get_orientation s = ⟨(V3.zero, V3.zero), s, []⟩ ∧
    listener.set_velocity v s = ⟨(), s, []⟩ ∧
    listener.get_velocity s = ⟨V3.zero, s, []⟩ := by
  refine ⟨?_, ?_, ?_, ?_, ?_, ?_, ?_, ?_⟩ <;>
    simp [listener.set_volume, listener.get_volume, listener.set_position,
      listener.get_position, listener.set_orientation, listener.get_orientation,
      listener.set_velocity, listener.get_velocity, checkOpenalContext, h]

/-- C2 (witness): the eight operations at a concrete context-less state. -/
theorem listener_no_context_defaults_witness :
    listener.set_volume 1 (mkState false []) = ⟨(), mkState false [], []⟩ ∧
    listener.get_volume (mkState false []) = ⟨0, mkState false [], []⟩ ∧
    listener.set_position ⟨1, 2, 3⟩ (mkState false []) = ⟨(), mkState false [], []⟩ ∧
    listener.get_position (mkState false []) = ⟨V3.zero, mkState false [], []⟩ ∧
    listener.set_orientation ⟨1, 2, 3⟩ ⟨4, 5, 6⟩ (mkState false []) =
      ⟨(), mkState false [], []⟩ ∧
    listener.get_orientation (mkState false []) =
      ⟨(V3.zero, V3.zero), mkState false [], []⟩ ∧
    listener.set_velocity ⟨7, 8, 9⟩ (mkState false []) = ⟨(), mkState false [], []⟩ ∧
    listener.get_velocity (mkState false []) = ⟨V3.zero, mkState false [], []⟩ :=
  listener_no_context_defaults (mkState false []) rfl 1 ⟨1, 2, 3⟩ ⟨1, 2, 3⟩ ⟨4, 5, 6⟩ ⟨7, 8, 9⟩

/-- C3 (confirmed): under a valid context, `set_position v` then
`get_position` returns `v` for every 3-vector `v`; without a valid
context `get_position` returns the zero vector from any state whatever,
hence regardless of prior `set_position` calls (which are themselves
no-ops without a context). -/
theorem listener_position_roundtrip (s : ALState) (v : V3) :
    (s.ctxValid = true →
      (listener.get_position ((listener.set_position v s).st)).val = v) ∧
    (s.ctxValid = false → (listener.get_position s).val = V3.zero) := by
  constructor
  · intro h
    simp [listener.set_position, listener.get_position, checkOpenalContext, h,
      alListenerfv, alGetListenerfv]
  · intro h
    simp [listener.get_position, checkOpenalContext, h]

/-- C3 (witness): the round trip at `v = [50, 150, 234]` (the repo's own
test vector) and the zero default without a context. -/
theorem listener_position_roundtrip_witness :
    (listener.get_position
      ((listener.set_position ⟨50, 150, 234⟩ (mkState true [])).st)).val =
      ⟨50, 150, 234⟩ ∧
    (listener.get_position (mkState false [])).val = V3.zero :=
  ⟨(listener_position_roundtrip (mkState true []) ⟨50, 150, 234⟩).1 rfl,
   (listener_position_roundtrip (mkState false []) ⟨50, 150, 234⟩).2 rfl⟩

/-- C4 (confirmed): under a valid context `set_orientation at up` makes
exactly one external call, carrying the single 6-element array
`[at.x, at.y, at.z, up.x, up.y, up.z]`, and a subsequent
`get_orientation` unpacks that same layout and returns `(at, up)`
unchanged. -/
theorem listener_orientation_pack_roundtrip (s : ALState) (a u : V3)
    (h : s.ctxValid = true) :
    (listener.set_orientation a u s).tr =
      [.listenerfv AL_ORIENTATION [a.x, a.y, a.z, u.x, u.y, u.z]] ∧
    (listener.get_orientation ((listener.set_orientation a u s).st)).val = (a, u) := by
  constructor
  · simp [listener.set_orientation, checkOpenalContext, h, alListenerfv]
  · simp [listener.set_orientation, listener.get_orientation, checkOpenalContext, h,
      alListenerfv, alGetListenerfv]

/-- C4 (witness): the spec's example, `at = [50, 150, 234]` and
`up = [277, 125, 71]`. -/
theorem listener_orientation_pack_roundtrip_witness :
    (listener.set_orientation ⟨50, 150, 234⟩ ⟨277, 125, 71⟩ (mkState true [])).tr =
      [.listenerfv AL_ORIENTATION [50, 150, 234, 277, 125, 71]] ∧
    (listener.get_orientation
      ((listener.set_orientation ⟨50, 150, 234⟩ ⟨277, 125, 71⟩ (mkState true [])).st)).val =
      (⟨50, 150, 234⟩, ⟨277, 125, 71⟩) :=
  listener_orientation_pack_roundtrip (mkState true []) ⟨50, 150, 234⟩ ⟨277, 125, 71⟩ rfl

/-- C5 (confirmed): `ReverbEffect::new` with no valid context fails with
`InvalidOpenALContext` making no external call; otherwise it allocates
an auxiliary effect slot, then an effect object, tags the effect as
reverb type, and queries the error flag exactly once — the trace is
exactly those four calls.  If the query reports an error, the result is
`InternalOpenALError` wrapping that diagnostic while both freshly
allocated handles stay alive, the slot stays bound to the null effect,
and no delete or slot-bind call appears in the trace; on a clean query
the result is a `ReverbEffect` holding both handles. -/
theorem reverb_new_spec (s : ALState) :
    (s.ctxValid = false →
      ReverbEffect.new s = ⟨.error .InvalidOpenALContext, s, []⟩) ∧
    (s.ctxValid = true →
      let slot := s.nextHandle + 1
      let eff := slot + 1
      (∀ err rest, s.errors = some err :: rest →
        (ReverbEffect.new s).val = .error (.InternalOpenALError err) ∧
        (ReverbEffect.new s).tr =
          [.genAuxiliaryEffectSlots 1 slot, .genEffects 1 eff,
           .effecti eff AL_EFFECT_TYPE AL_EFFECT_REVERB, .getError] ∧
        (ReverbEffect.new s).st.aliveSlots = slot :: s.aliveSlots ∧
        (ReverbEffect.new s).st.aliveEffects = eff :: s.aliveEffects ∧
        (ReverbEffect.new s).st.slotBinding slot = AL_EFFECT_NULL) ∧
      (∀ rest, s.errors = none :: rest →
        (ReverbEffect.new s).val = .ok ⟨eff, slot⟩ ∧
        (ReverbEffect.new s).tr =
          [.genAuxiliaryEffectSlots 1 slot, .genEffects 1 eff,
           .effecti eff AL_EFFECT_TYPE AL_EFFECT_REVERB, .getError])) := by
  constructor
  · intro h
    simp [ReverbEffect.new, checkOpenalContext, h]
  · intro h
    constructor
    · intro err rest herr
      refine ⟨?_, ?_, ?_, ?_, ?_⟩ <;>
        simp [ReverbEffect.new, checkOpenalContext, h, herr,
          alGenAuxiliaryEffectSlots, alGenEffects, alEffecti, openal_has_error]
    · intro rest herr
      refine ⟨?_, ?_⟩ <;>
        simp [ReverbEffect.new, checkOpenalContext, h, herr,
          alGenAuxiliaryEffectSlots, alGenEffects, alEffecti, openal_has_error]

/-- C5 (witness): both construction outcomes at concrete states — a
clean oracle yields `Ok ⟨2, 1⟩` with the four-call trace; an oracle
reporting `OutOfMemory` yields the wrapped internal error with both
handles still alive and the slot unbound. -/
theorem reverb_new_spec_witness :
    ((ReverbEffect.new (mkState true [none])).val = .ok ⟨2, 1⟩ ∧
     (ReverbEffect.new (mkState true [none])).tr =
       [.genAuxiliaryEffectSlots 1 1, .genEffects 1 2,
        .effecti 2 AL_EFFECT_TYPE AL_EFFECT_REVERB, .getError]) ∧
    ((ReverbEffect.new (mkState true [some .OutOfMemory])).val =
       .error (.InternalOpenALError .OutOfMemory) ∧
     (ReverbEffect.new (mkState true [some .OutOfMemory])).tr =
       [.genAuxiliaryEffectSlots 1 1, .genEffects 1 2,
        .effecti 2 AL_EFFECT_TYPE AL_EFFECT_REVERB, .getError] ∧
     (ReverbEffect.new (mkState true [some .OutOfMemory])).st.aliveSlots = [1] ∧
     (ReverbEffect.new (mkState true [some .OutOfMemory])).st.aliveEffects = [2] ∧
     (ReverbEffect.new (mkState true [some .OutOfMemory])).st.slotBinding 1 =
       AL_EFFECT_NULL) :=
  ⟨(reverb_new_spec (mkState true [none])).2 rfl |>.2 [] rfl,
   (reverb_new_spec (mkState true [some .OutOfMemory])).2 rfl |>.1 .OutOfMemory [] rfl⟩

/-- C6 (confirmed): `ReverbEffect::preset` propagates base-construction
failure unchanged (here: the no-context error); each of the thirteen
parameter setters and the bind step is individually guarded by the
valid-context check (each is a no-op from any context-less state); and
on a fully successful run the trace is exactly: base construction (two
allocations, the reverb tag, one error query), the thirteen parameter
writes to the effect object in source order, one aggregate error query,
and only then the single call binding the effect into its auxiliary
slot.  The result holds both handles, `slot()` returns the nonzero slot
handle, and the final state has the effect bound into the slot. -/
theorem reverb_preset_spec (s : ALState) (props : ReverbProperties) :
    (s.ctxValid = false →
      ReverbEffect.preset props s = ⟨.error .InvalidOpenALContext, s, []⟩) ∧
    (∀ (e : ReverbEffect) (t : ALState), t.ctxValid = false →
      e.set_density props.density t = ⟨(), t, []⟩ ∧
      e.set_diffusion props.diffusion t = ⟨(), t, []⟩ ∧
      e.set_gain props.gain t = ⟨(), t, []⟩ ∧
      e.set_gainhf props.gainhf t = ⟨(), t, []⟩ ∧
      e.set_decay_time props.decay_time t = ⟨(), t, []⟩ ∧
      e.set_decay_hfratio props.decay_hfratio t = ⟨(), t, []⟩ ∧
      e.set_reflections_gain props.reflections_gain t = ⟨(), t, []⟩ ∧
      e.set_reflections_delay props.reflections_delay t = ⟨(), t, []⟩ ∧
      e.set_late_reverb_gain props.late_reverb_gain t = ⟨(), t, []⟩ ∧
      e.set_late_reverb_delay props.late_reverb_delay t = ⟨(), t, []⟩ ∧
      e.set_air_absorption_gainhf props.air_absorption_gainhf t = ⟨(), t, []⟩ ∧
      e.set_room_rolloff_factor props.room_rolloff_factor t = ⟨(), t, []⟩ ∧
      e.set_decay_hflimit props.decay_hflimit t = ⟨(), t, []⟩ ∧
      e.update_slot t = ⟨(), t, []⟩) ∧
    (s.ctxValid = true → ∀ rest, s.errors = none :: none :: rest →
      let slot := s.nextHandle + 1
      let eff := slot + 1
      (ReverbEffect.preset props s).val = .ok ⟨eff, slot⟩ ∧
      (ReverbEffect.preset props s).tr =
        [.genAuxiliaryEffectSlots 1 slot, .genEffects 1 eff,
         .effecti eff AL_EFFECT_TYPE AL_EFFECT_REVERB, .getError,
         .effectf eff AL_REVERB_DENSITY props.density,
         .effectf eff AL_REVERB_DIFFUSION props.diffusion,
         .effectf eff AL_REVERB_GAIN props.gain,
         .effectf eff AL_REVERB_GAINHF props.gainhf,
         .effectf eff AL_REVERB_DECAY_TIME props.decay_time,
         .effectf eff AL_REVERB_DECAY_HFRatio props.decay_hfratio,
         .effectf eff AL_REVERB_REFLECTIONS_GAIN props.reflections_gain,
         .effectf eff AL_REVERB_REFLECTIONS_DELAY props.reflections_delay,
         .effectf eff AL_REVERB_LATE_REVERB_GAIN props.late_reverb_gain,
         .effectf eff AL_REVERB_LATE_REVERB_DELAY props.late_reverb_delay,
         .effectf eff AL_REVERB_AIR_ABSORPTION_GAINHF props.air_absorption_gainhf,
         .effectf eff AL_REVERB_ROOM_ROLLOFF_FACTOR props.room_rolloff_factor,
         .effecti eff AL_REVERB_DECAY_HFLIMIT props.decay_hflimit,
         .getError,
         .auxiliaryEffectSloti slot AL_EFFECTSLOT_EFFECT eff] ∧
      (ReverbEffect.mk eff slot).slot = slot ∧
      0 < (ReverbEffect.mk eff slot).slot ∧
      (ReverbEffect.preset props s).st.slotBinding slot = eff) := by
  refine ⟨?_, ?_, ?_⟩
  · intro h
    simp [ReverbEffect.preset, ReverbEffect.new, checkOpenalContext, h]
  · intro e t h
    refine ⟨?_, ?_, ?_, ?_, ?_, ?_, ?_, ?_, ?_, ?_, ?_, ?_, ?_, ?_⟩ <;>
      simp [ReverbEffect.set_density, ReverbEffect.set_diffusion,
        ReverbEffect.set_gain, ReverbEffect.set_gainhf, ReverbEffect.set_decay_time,
        ReverbEffect.set_decay_hfratio, ReverbEffect.set_reflections_gain,
        ReverbEffect.set_reflections_delay, ReverbEffect.set_late_reverb_gain,
        ReverbEffect.set_late_reverb_delay, ReverbEffect.set_air_absorption_gainhf,
        ReverbEffect.set_room_rolloff_factor, ReverbEffect.set_decay_hflimit,
        ReverbEffect.update_slot, checkOpenalContext, h]
  · intro h rest herr
    refine ⟨?_, ?_, ?_, ?_, ?_⟩ <;>
      simp [ReverbEffect.preset, ReverbEffect.new, ReverbEffect.set_density,
        ReverbEffect.set_diffusion, ReverbEffect.set_gain, ReverbEffect.set_gainhf,
        ReverbEffect.set_decay_time, ReverbEffect.set_decay_hfratio,
        ReverbEffect.set_reflections_gain, ReverbEffect.set_reflections_delay,
        ReverbEffect.set_late_reverb_gain, ReverbEffect.set_late_reverb_delay,
        ReverbEffect.set_air_absorption_gainhf, ReverbEffect.set_room_rolloff_factor,
        ReverbEffect.set_decay_hflimit, ReverbEffect.update_slot, ReverbEffect.slot,
        checkOpenalContext, h, herr, alGenAuxiliaryEffectSlots, alGenEffects,
        alEffecti, alEffectf, alAuxiliaryEffectSloti, openal_has_error,
        AL_EFFECTSLOT_EFFECT]

/-- C6 (witness): a full successful `preset` run from a fresh state with
a clean error oracle: handles `1` (slot) and `2` (effect) are allocated,
all thirteen parameters are written in order, and after the aggregate
check the effect is bound into the slot; `slot()` is the nonzero `1`. -/
theorem reverb_preset_spec_witness :
    (ReverbEffect.preset presetProps (mkState true [none, none])).val = .ok ⟨2, 1⟩ ∧
    (ReverbEffect.preset presetProps (mkState true [none, none])).tr =
      [.genAuxiliaryEffectSlots 1 1, .genEffects 1 2,
       .effecti 2 AL_EFFECT_TYPE AL_EFFECT_REVERB, .getError,
       .effectf 2 AL_REVERB_DENSITY presetProps.density,
       .effectf 2 AL_REVERB_DIFFUSION presetProps.diffusion,
       .effectf 2 AL_REVERB_GAIN presetProps.gain,
       .effectf 2 AL_REVERB_GAINHF presetProps.gainhf,
       .effectf 2 AL_REVERB_DECAY_TIME presetProps.decay_time,
       .effectf 2 AL_REVERB_DECAY_HFRatio presetProps.decay_hfratio,
       .effectf 2 AL_REVERB_REFLECTIONS_GAIN presetProps.reflections_gain,
       .effectf 2 AL_REVERB_REFLECTIONS_DELAY presetProps.reflections_delay,
       .effectf 2 AL_REVERB_LATE_REVERB_GAIN presetProps.late_reverb_gain,
       .effectf 2 AL_REVERB_LATE_REVERB_DELAY presetProps.late_reverb_delay,
       .effectf 2 AL_REVERB_AIR_ABSORPTION_GAINHF presetProps.air_absorption_gainhf,
       .effectf 2 AL_REVERB_ROOM_ROLLOFF_FACTOR presetProps.room_rolloff_factor,
       .effecti 2 AL_REVERB_DECAY_HFLIMIT presetProps.decay_hflimit,
       .getError,
       .auxiliaryEffectSloti 1 AL_EFFECTSLOT_EFFECT 2] ∧
    (ReverbEffect.mk 2 1).slot = 1 ∧
    0 < (ReverbEffect.mk 2 1).slot ∧
    (ReverbEffect.preset presetProps (mkState true [none, none])).st.slotBinding 1 = 2 :=
  (reverb_preset_spec (mkState true [none, none]) presetProps).2.2 rfl [] rfl

/-- C10 (confirmed): when base construction succeeds (first error query
clean) but `preset`'s aggregate error query reports an error, `preset`
returns `InternalOpenALError` and — because the Rust `return Err(..)`
drops the already-constructed `ReverbEffect` — the trace continues past
the aggregate query with the drop's unbind and the deletion of both
handles, so the final state's alive sets are exactly the initial ones:
this error path leaks nothing.  In contrast, on `ReverbEffect::new`'s
own error path both freshly allocated handles remain alive. -/
theorem reverb_preset_error_path (s : ALState) (props : ReverbProperties)
    (err : AlError) (rest : List (Option AlError)) :
    (s.ctxValid = true → s.errors = none :: some err :: rest →
      let slot := s.nextHandle + 1
      let eff := slot + 1
      (ReverbEffect.preset props s).val = .error (.InternalOpenALError err) ∧
      (ReverbEffect.preset props s).tr =
        [.genAuxiliaryEffectSlots 1 slot, .genEffects 1 eff,
         .effecti eff AL_EFFECT_TYPE AL_EFFECT_REVERB, .getError,
         .effectf eff AL_REVERB_DENSITY props.density,
         .effectf eff AL_REVERB_DIFFUSION props.diffusion,
         .effectf eff AL_REVERB_GAIN props.gain,
         .effectf eff AL_REVERB_GAINHF props.gainhf,
         .effectf eff AL_REVERB_DECAY_TIME props.decay_time,
         .effectf eff AL_REVERB_DECAY_HFRatio props.decay_hfratio,
         .effectf eff AL_REVERB_REFLECTIONS_GAIN props.reflections_gain,
         .effectf eff AL_REVERB_REFLECTIONS_DELAY props.reflections_delay,
         .effectf eff AL_REVERB_LATE_REVERB_GAIN props.late_reverb_gain,
         .effectf eff AL_REVERB_LATE_REVERB_DELAY props.late_reverb_delay,
         .effectf eff AL_REVERB_AIR_ABSORPTION_GAINHF props.air_absorption_gainhf,
         .effectf eff AL_REVERB_ROOM_ROLLOFF_FACTOR props.room_rolloff_factor,
         .effecti eff AL_REVERB_DECAY_HFLIMIT props.decay_hflimit,
         .getError,
         .auxiliaryEffectSloti slot AL_EFFECTSLOT_EFFECT AL_EFFECT_NULL,
         .deleteEffects 1 eff,
         .deleteAuxiliaryEffectSlots 1 slot,
         .getError] ∧
      (ReverbEffect.preset props s).st.aliveEffects = s.aliveEffects ∧
      (ReverbEffect.preset props s).st.aliveSlots = s.aliveSlots ∧
      (ReverbEffect.preset props s).st.slotBinding slot = AL_EFFECT_NULL) ∧
    (∀ (s2 : ALState) (err2 : AlError) (rest2 : List (Option AlError)),
      s2.ctxValid = true → s2.errors = some err2 :: rest2 →
      (ReverbEffect.new s2).st.aliveEffects = (s2.nextHandle + 1 + 1) :: s2.aliveEffects ∧
      (ReverbEffect.new s2).st.aliveSlots = (s2.nextHandle + 1) :: s2.aliveSlots) := by
  constructor
  · intro h herr
    refine ⟨?_, ?_, ?_, ?_, ?_⟩ <;>
      simp [ReverbEffect.preset, ReverbEffect.new, ReverbEffect.set_density,
        ReverbEffect.set_diffusion, ReverbEffect.set_gain, ReverbEffect.set_gainhf,
        ReverbEffect.set_decay_time, ReverbEffect.set_decay_hfratio,
        ReverbEffect.set_reflections_gain, ReverbEffect.set_reflections_delay,
        ReverbEffect.set_late_reverb_gain, ReverbEffect.set_late_reverb_delay,
        ReverbEffect.set_air_absorption_gainhf, ReverbEffect.set_room_rolloff_factor,
        ReverbEffect.set_decay_hflimit, ReverbEffect.drop, checkOpenalContext, h,
        herr, alGenAuxiliaryEffectSlots, alGenEffects, alEffecti, alEffectf,
        alAuxiliaryEffectSloti, alDeleteEffects, alDeleteAuxiliaryEffectSlots,
        openal_has_error, AL_EFFECTSLOT_EFFECT, List.erase_cons_head]
  · intro s2 err2 rest2 h2 herr2
    refine ⟨?_, ?_⟩ <;>
      simp [ReverbEffect.new, checkOpenalContext, h2, herr2,
        alGenAuxiliaryEffectSlots, alGenEffects, alEffecti, openal_has_error]

/-- C10 (witness): the drop-on-error path run from a fresh state whose
oracle answers "clean" to construction's check and `InvalidValue` to the
aggregate check: the error is surfaced, the trace ends with
unbind-delete-delete, and no handle stays alive. -/
theorem reverb_preset_error_path_witness :
    (ReverbEffect.preset presetProps (mkState true [none, some .InvalidValue])).val =
      .error (.InternalOpenALError .InvalidValue) ∧
    (ReverbEffect.preset presetProps (mkState true [none, some .InvalidValue])).tr =
      [.genAuxiliaryEffectSlots 1 1, .genEffects 1 2,
       .effecti 2 AL_EFFECT_TYPE AL_EFFECT_REVERB, .getError,
       .effectf 2 AL_REVERB_DENSITY presetProps.density,
       .effectf 2 AL_REVERB_DIFFUSION presetProps.diffusion,
       .effectf 2 AL_REVERB_GAIN presetProps.gain,
       .effectf 2 AL_REVERB_GAINHF presetProps.gainhf,
       .effectf 2 AL_REVERB_DECAY_TIME presetProps.decay_time,
       .effectf 2 AL_REVERB_DECAY_HFRatio presetProps.decay_hfratio,
       .effectf 2 AL_REVERB_REFLECTIONS_GAIN presetProps.reflections_gain,
       .effectf 2 AL_REVERB_REFLECTIONS_DELAY presetProps.reflections_delay,
       .effectf 2 AL_REVERB_LATE_REVERB_GAIN presetProps.late_reverb_gain,
       .effectf 2 AL_REVERB_LATE_REVERB_DELAY presetProps.late_reverb_delay,
       .effectf 2 AL_REVERB_AIR_ABSORPTION_GAINHF presetProps.air_absorption_gainhf,
       .effectf 2 AL_REVERB_ROOM_ROLLOFF_FACTOR presetProps.room_rolloff_factor,
       .effecti 2 AL_REVERB_DECAY_HFLIMIT presetProps.decay_hflimit,
       .getError,
       .auxiliaryEffectSloti 1 AL_EFFECTSLOT_EFFECT AL_EFFECT_NULL,
       .deleteEffects 1 2,
       .deleteAuxiliaryEffectSlots 1 1,
       .getError] ∧
    (ReverbEffect.preset presetProps (mkState true [none, some .InvalidValue])).st.aliveEffects =
      [] ∧
    (ReverbEffect.preset presetProps (mkState true [none, some .InvalidValue])).st.aliveSlots =
      [] ∧
    (ReverbEffect.preset presetProps (mkState true [none, some .InvalidValue])).st.slotBinding 1 =
      AL_EFFECT_NULL :=
  (reverb_preset_error_path (mkState true [none, some .InvalidValue]) presetProps
    .InvalidValue []).1 rfl rfl

/-- C7 (confirmed): when the decoded file's channel count maps to no
supported buffer format, `SoundData::new` fails with `InvalidFormat`;
the trace contains only the decoder open and the sample read — no
`genBuffers` and no `bufferData` call — and the external state is
entirely unchanged, so no buffer handle is generated and nothing is
uploaded on this path. -/
theorem sound_data_invalid_format (fs : SndFileSystem) (path : String)
    (f : SndFileData) (s : ALState) (h : s.ctxValid = true)
    (hopen : fs path = .ok f)
    (hfmt : get_channels_format f.info.channels = none) :
    (SoundData.new fs path s).val = .error .InvalidFormat ∧
    (SoundData.new fs path s).tr =
      [.sndOpen path,
       .sndRead (f.info.channels * f.info.frames)
         (readVec f.samples (usizeCast (f.info.channels * f.info.frames)))] ∧
    (SoundData.new fs path s).st = s := by
  refine ⟨?_, ?_, ?_⟩ <;>
    simp [SoundData.new, checkOpenalContext, h, hopen, hfmt]

/-- C7 (witness): the four-channel file: `InvalidFormat`, with a trace
of exactly the decoder open and the read of its `4 × 2 = 8` samples,
and the state untouched. -/
theorem sound_data_invalid_format_witness :
    (SoundData.new demoFS "quad.wav" (mkState true [])).val = .error .InvalidFormat ∧
    (SoundData.new demoFS "quad.wav" (mkState true [])).tr =
      [.sndOpen "quad.wav", .sndRead 8 [1, 2, 3, 4, 5, 6, 7, 8]] ∧
    (SoundData.new demoFS "quad.wav" (mkState true [])).st = mkState true [] :=
  sound_data_invalid_format demoFS "quad.wav" quadFile (mkState true []) rfl rfl rfl

/-- C8 (confirmed): for a well-formed mono or stereo file (supported
channel count, at least one frame, decoded size within the upload call's
`i32` length field), under a valid context and a clean error flag,
`SoundData::new` succeeds; the stored `nb_sample` is `channels × frames`
and positive; the in-memory sample vector read from the decoder has
exactly that many entries; and the upload call receives those samples
with byte length `2 × nb_sample` (`size_of(i16)` bytes per sample) and
the file's sample rate, into the one freshly generated buffer. -/
theorem sound_data_wellformed (fs : SndFileSystem) (path : String)
    (f : SndFileData) (s : ALState) (h : s.ctxValid = true)
    (hopen : fs path = .ok f) (hwf : f.wellFormed)
    (herr : s.errors.headD none = none) :
    let n : Int := f.info.channels * f.info.frames
    let buf := s.nextHandle + 1
    let smp := readVec f.samples (usizeCast n)
    let fmt := if f.info.channels = 1 then AL_FORMAT_MONO16 else AL_FORMAT_STEREO16
    (SoundData.new fs path s).val = .ok ⟨f.tags, f.info, n, buf⟩ ∧
    0 < n ∧
    smp.length = n.toNat ∧
    (SoundData.new fs path s).tr =
      [.sndOpen path, .sndRead n smp, .genBuffers 1 buf,
       .bufferData buf fmt smp (2 * n) f.info.samplerate, .getError, .sndClose] ∧
    (SoundData.new fs path s).st.aliveBuffers = buf :: s.aliveBuffers := by
  obtain ⟨hc, hfr, hbound⟩ := hwf
  have hn0 : 0 < f.info.channels * f.info.frames := by
    rcases hc with h1 | h1 <;> rw [h1] <;> omega
  have hlen : (readVec f.samples (usizeCast (f.info.channels * f.info.frames))).length =
      (f.info.channels * f.info.frames).toNat := by
    rw [readVec_length, usizeCast_of_nonneg] <;> omega
  have hlt : 2 * (f.info.channels * f.info.frames).toNat < 2 ^ 31 := by omega
  have hi32 : i32cast (2 * (f.info.channels * f.info.frames).toNat) =
      2 * (f.info.channels * f.info.frames) := by
    rw [i32cast_of_lt _ hlt]
    omega
  have herr2 : s.errors.head?.getD none = none := by
    rw [← List.headD_eq_head?]
    exact herr
  have key : ∀ x : Int, 0 < x → 2 * x < 2 ^ 31 →
      i32cast (2 * (readVec f.samples (usizeCast x)).length) = 2 * x := by
    intro x hx hbx
    rw [readVec_length, usizeCast_of_nonneg _ (by omega) (by omega),
      i32cast_of_lt _ (by omega)]
    omega
  refine ⟨?_, hn0, hlen, ?_, ?_⟩
  · rcases hc with h1 | h1 <;>
      simp [SoundData.new, checkOpenalContext, h, hopen, h1, get_channels_format,
        alGenBuffers, alBufferData, openal_has_error, herr2]
  · rcases hc with h1 | h1
    · have hx := key f.info.frames (by omega) (by rw [h1] at hbound; omega)
      simp [SoundData.new, checkOpenalContext, h, hopen, h1, get_channels_format,
        alGenBuffers, alBufferData, openal_has_error, herr2, hx]
    · have hx := key (2 * f.info.frames) (by omega) (by rw [h1] at hbound; omega)
      simp [SoundData.new, checkOpenalContext, h, hopen, h1, get_channels_format,
        alGenBuffers, alBufferData, openal_has_error, herr2, hx]
  · rcases hc with h1 | h1 <;>
      simp [SoundData.new, checkOpenalContext, h, hopen, h1, get_channels_format,
        alGenBuffers, alBufferData, openal_has_error, herr2]

/-- C8 (witness): the concrete stereo file (`2` channels, `3` frames):
construction succeeds with `nb_sample = 6 > 0`, all six samples in
memory, and an upload of those samples with byte length `12` at rate
`44100` into buffer `1`. -/
theorem sound_data_wellformed_witness :
    (SoundData.new demoFS "res/shot.wav" (mkState true [])).val =
      .ok ⟨[("title", "shot")], shotFile.info, 6, 1⟩ ∧
    (0 : Int) < 6 ∧
    ([11, 12, 21, 22, 31, 32] : List Int).length = (6 : Int).toNat ∧
    (SoundData.new demoFS "res/shot.wav" (mkState true [])).tr =
      [.sndOpen "res/shot.wav", .sndRead 6 [11, 12, 21, 22, 31, 32],
       .genBuffers 1 1,
       .bufferData 1 AL_FORMAT_STEREO16 [11, 12, 21, 22, 31, 32] 12 44100,
       .getError, .sndClose] ∧
    (SoundData.new demoFS "res/shot.wav" (mkState true [])).st.aliveBuffers = [1] :=
  sound_data_wellformed demoFS "res/shot.wav" shotFile (mkState true [])
    rfl rfl (by decide) rfl

/-- C9 (confirmed): when the decoder fails to open the path under a
valid context, `SoundData::new` fails with `LoadError` wrapping the
decoder's diagnostic, the trace holds only the failed open — no buffer
handle is generated, nothing is uploaded — and the external state is
unchanged; when no valid context exists, it fails with
`InvalidOpenALContext` before any external call at all, the open
included. -/
theorem sound_data_load_error (fs : SndFileSystem) (path : String)
    (err : SndError) (s : ALState) :
    (s.ctxValid = true → fs path = .error err →
      SoundData.new fs path s = ⟨.error (.LoadError err), s, [.sndOpen path]⟩) ∧
    (s.ctxValid = false →
      SoundData.new fs path s = ⟨.error .InvalidOpenALContext, s, []⟩) := by
  constructor
  · intro h hopen
    simp [SoundData.new, checkOpenalContext, h, hopen]
  · intro h
    simp [SoundData.new, checkOpenalContext, h]

/-- C9 (witness): a nonexistent path: `LoadError` wrapping the decoder
diagnostic with only the failed open in the trace; and, without a
context, `InvalidOpenALContext` with an empty trace. -/
theorem sound_data_load_error_witness :
    SoundData.new demoFS "toto.wav" (mkState true []) =
      ⟨.error (.LoadError "No such file or directory"), mkState true [],
        [.sndOpen "toto.wav"]⟩ ∧
    SoundData.new demoFS "toto.wav" (mkState false []) =
      ⟨.error .InvalidOpenALContext, mkState false [], []⟩ :=
  ⟨(sound_data_load_error demoFS "toto.wav" "No such file or directory"
      (mkState true [])).1 rfl rfl,
   (sound_data_load_error demoFS "toto.wav" "No such file or directory"
      (mkState false [])).2 rfl⟩
